import Mathlib

/-!
Verification of the parking-space occupancy detection pipeline
(`src/utils/parkingDetection.ts`).

The development shallowly embeds the pure decision logic of the pipeline
over exact rationals (`ℚ`): JavaScript numbers are modelled as rationals,
with the single JavaScript-specific quirk (`n % 0` evaluating to `NaN`,
which compares `!== 0` as true) modelled explicitly where it matters.
Pixel-level feature extraction (Sobel, local binary patterns, …) is
parametrised away behind `CropMeasurements`: every claim below is about
the decision logic downstream of those scalar measurements, except for
the motion estimator, which is embedded directly.
-/

namespace Parking

/- The `CONFIG` constant object at the top of `parkingDetection.ts`. -/
namespace CONFIG

def MIN_CONSECUTIVE_FRAMES : ℚ := 3

def SHADOW_THRESHOLD : ℚ := 45/100

def OCCUPANCY_THRESHOLD : ℚ := 50/100

def MODEL_VERIFICATION_INTERVAL : ℕ := 3

def EDGE_DENSITY_THRESHOLD : ℚ := 15/100

def TEXTURE_COMPLEXITY_THRESHOLD : ℚ := 25/100

def COLOR_VARIANCE_THRESHOLD : ℚ := 25/100

def MIN_VEHICLE_CONFIDENCE : ℚ := 60/100

def PARKING_SPACE_MIN_SIZE : ℚ := 20

def MAX_FRAME_SKIP : ℕ := 0

def MOTION_INFLUENCE : ℚ := 35/100

def UNCERTAINTY_THRESHOLD : ℚ := 35/100

def CONFIDENCE_BOOST : ℚ := 12/10

end CONFIG

/-- `interface Point` : a 2-D point. -/
structure Point where
  x : ℚ
  y : ℚ
deriving DecidableEq, Repr

/-- The shape tag of `interface Region`. -/
inductive RegionType where
  | rectangle : RegionType
  | quadrilateral : RegionType
deriving DecidableEq, Repr

/-- `interface Region` : a user-drawn polygon marking one parking space. -/
structure Region where
  id : String
  points : List Point
  type : RegionType
deriving DecidableEq, Repr

/-- The `features` bundle of `interface ParkingSpace`. -/
structure Features where
  nonZeroCount : ℚ
  brightness : ℚ
  edgeDensity : ℚ
  textureComplexity : ℚ
  perspectiveScore : ℚ
  heatmapScore : ℚ
  colorVariance : ℚ
  motionScore : ℚ
  shadowScore : ℚ
  stabilityScore : ℚ
deriving DecidableEq, Repr

/-- `interface ParkingSpace` : the per-region, per-frame result. -/
structure ParkingSpace where
  id : ℕ
  region : Region
  isOccupied : Bool
  confidence : ℚ
  lastStateChange : ℚ
  stateHistory : List Bool
  vehicleType : Option String
  features : Features
deriving DecidableEq, Repr

/-- `getRegionBounds` result (`minX/minY/maxX/maxY/width/height`). -/
structure RegionBounds where
  minX : ℚ
  minY : ℚ
  maxX : ℚ
  maxY : ℚ
  width : ℚ
  height : ℚ
deriving DecidableEq, Repr

/-- `Math.min(...xs)` over a list (0 for the empty list, which the pipeline
never produces since validated regions have at least 3 points). -/
def listMinD : List ℚ → ℚ
  | [] => 0
  | x :: xs => xs.foldl min x

/-- `Math.max(...xs)` over a list (0 for the empty list). -/
def listMaxD : List ℚ → ℚ
  | [] => 0
  | x :: xs => xs.foldl max x

/-- `getRegionBounds(region)` : axis-aligned bounding box of the points. -/
def getRegionBounds (r : Region) : RegionBounds :=
  let xs := r.points.map (fun p => p.x)
  let ys := r.points.map (fun p => p.y)
  { minX := listMinD xs
    minY := listMinD ys
    maxX := listMaxD xs
    maxY := listMaxD ys
    width := listMaxD xs - listMinD xs
    height := listMaxD ys - listMinD ys }

/-- The `every(p => p.x >= 0 && p.x <= 1 && p.y >= 0 && p.y <= 1)` check the
pipeline uses to auto-detect normalized region coordinates. -/
def regionIsNormalized (r : Region) : Bool :=
  r.points.all fun p =>
    decide (0 ≤ p.x) && decide (p.x ≤ 1) && decide (0 ≤ p.y) && decide (p.y ≤ 1)

/-- Scaling a region's points by per-axis factors, as done when mapping
normalized coordinates into canvas/tensor pixel space. -/
def scaleRegion (r : Region) (sx sy : ℚ) : Region :=
  { r with points := r.points.map fun p => ⟨p.x * sx, p.y * sy⟩ }

/-- `createEmptySpace(index, region)` : the zero-confidence space emitted for
regions that fail the minimum-size check.  `now` stands for `Date.now()`. -/
def createEmptySpace (index : ℕ) (region : Region) (now : ℚ) : ParkingSpace :=
  { id := index
    region := region
    isOccupied := false
    confidence := 0
    lastStateChange := now
    stateHistory := []
    vehicleType := none
    features :=
      { nonZeroCount := 0
        brightness := 0
        edgeDensity := 0
        textureComplexity := 0
        perspectiveScore := 0
        heatmapScore := 0
        colorVariance := 0
        motionScore := 0
        shadowScore := 0
        stabilityScore := 1/2 } }

/-- The scalar measurements `detectParkingSpaces` extracts from one region's
cropped `ImageData` (lines 1037–1051): crop dimensions, `countNonZeroPixels`,
`calculateBrightness`, `calculateEnhancedShadowScore`,
`calculateDynamicThreshold`, `calculateColorVariance`,
`calculateEnhancedTextureFeatures().complexity` and
`calculateEnhancedEdgeFeatures().density`. -/
structure CropMeasurements where
  width : ℚ
  height : ℚ
  nonZeroCount : ℚ
  brightness : ℚ
  shadowScore : ℚ
  dynamicThreshold : ℚ
  colorVariance : ℚ
  textureComplexity : ℚ
  edgeDensity : ℚ
deriving DecidableEq, Repr

/-- The heuristic classifier's scalar inputs (code lines 1046–1058). -/
structure HeuristicInputs where
  normalizedCount : ℚ
  shadowScore : ℚ
  dynamicThreshold : ℚ
  colorVariance : ℚ
  textureComplexity : ℚ
  edgeDensity : ℚ
  motionScore : ℚ
  stabilityScore : ℚ
deriving DecidableEq, Repr

/-- `calculateDynamicThreshold` (lines 361–365), over the scalar features. -/
def calculateDynamicThreshold (brightness colorVariance : ℚ) : ℚ :=
  CONFIG.OCCUPANCY_THRESHOLD * (1 + (1/2 - brightness)) * (1 + colorVariance)

/-- `isShadow = shadowScore < CONFIG.SHADOW_THRESHOLD` (line 1057). -/
def heuristicIsShadow (f : HeuristicInputs) : Bool :=
  decide (f.shadowScore < CONFIG.SHADOW_THRESHOLD)

/-- The multi-factor occupancy score (lines 1064–1069). -/
def heuristicOccupancyScore (f : HeuristicInputs) : ℚ :=
  f.normalizedCount * (35/100)
    + (if f.textureComplexity > CONFIG.TEXTURE_COMPLEXITY_THRESHOLD then 25/100 else 0)
    + (if f.edgeDensity > CONFIG.EDGE_DENSITY_THRESHOLD then 25/100 else 0)
    + (if f.colorVariance > CONFIG.COLOR_VARIANCE_THRESHOLD then 10/100 else 0)
    + (if f.motionScore > CONFIG.MOTION_INFLUENCE * f.stabilityScore then 5/100 else 0)

/-- `isOccupied = !isShadow && occupancyScore > dynamicThreshold` (line 1072). -/
def heuristicIsOccupied (f : HeuristicInputs) : Bool :=
  !heuristicIsShadow f && decide (heuristicOccupancyScore f > f.dynamicThreshold)

/-- The heuristic confidence computation (lines 1075–1081). -/
def heuristicConfidence (f : HeuristicInputs) : ℚ :=
  let errorMargin := |heuristicOccupancyScore f - f.dynamicThreshold|
  let baseConfidence := if heuristicIsShadow f then (3/10 : ℚ) else max (1/2) (1 - errorMargin)
  min 1 (baseConfidence * (1 + (2/10) * f.motionScore) * max (7/10) f.stabilityScore)

/-- A COCO-SSD detection (`{class, score}`; the box is irrelevant to the
merge logic and omitted). -/
structure Prediction where
  className : String
  score : ℚ
deriving DecidableEq, Repr

/-- A MobileNet classification (`{className, probability}`). -/
structure Classification where
  className : String
  probability : ℚ
deriving DecidableEq, Repr

/-- Whether the character list `hay` begins with the character list `pat`. -/
def charsBeginWith : List Char → List Char → Bool
  | [], _ => true
  | _ :: _, [] => false
  | p :: ps, q :: qs => (p == q) && charsBeginWith ps qs

/-- Whether `pat` occurs as a contiguous run inside `hay` (JavaScript
`String.includes`, on the underlying character lists). -/
def charsInclude : List Char → List Char → Bool
  | _, [] => true
  | [], _ :: _ => false
  | h :: hs, p :: ps => charsBeginWith (p :: ps) (h :: hs) || charsInclude hs (p :: ps)

/-- ASCII lower-casing of one character (JavaScript `toLowerCase` on the
ASCII vehicle-class names involved here). -/
def charToLowerAscii (c : Char) : Char :=
  if 'A' ≤ c ∧ c ≤ 'Z' then Char.ofNat (c.toNat + 32) else c

/-- `s.toLowerCase()` on the underlying character list. -/
def charsToLower (l : List Char) : List Char := l.map charToLowerAscii

/-- `s.toLowerCase().includes(pat)` for strings. -/
def strIncludes (s pat : String) : Bool :=
  charsInclude (charsToLower s.toList) pat.toList

/-- Helper for `split(sep)`: accumulates the current segment. -/
def splitOnCharAux (sep : Char) : List Char → List Char → List (List Char)
  | [], acc => [acc.reverse]
  | c :: cs, acc =>
    if c == sep then acc.reverse :: splitOnCharAux sep cs []
    else splitOnCharAux sep cs (c :: acc)

/-- JavaScript `String.split` with a single-character separator, on the
underlying character list (always returns a non-empty list of segments). -/
def splitOnChar (l : List Char) (sep : Char) : List (List Char) :=
  splitOnCharAux sep l []

/-- The `vehicleClasses` list used to filter COCO-SSD predictions (line 543). -/
def vehicleClasses : List String :=
  ["car", "truck", "bus", "motorcycle", "vehicle", "van", "suv", "pickup"]

/-- The `vehicleKeywords` list used on MobileNet labels (line 568). -/
def vehicleKeywords : List String :=
  ["car", "truck", "bus", "motorcycle", "vehicle", "van"]

/-- `vehicleClasses.some(vc => p.class.toLowerCase().includes(vc))`. -/
def vehicleClassMatch (name : String) : Bool :=
  vehicleClasses.any fun vc => strIncludes name vc

/-- `vehicleKeywords.some(vk => f.className.toLowerCase().includes(vk))`. -/
def vehicleKeywordMatch (name : String) : Bool :=
  vehicleKeywords.any fun vk => strIncludes name vk

/-- The filter building `vehiclePredictions` (lines 544–547): vehicle class
and score strictly above `MIN_VEHICLE_CONFIDENCE`. -/
def vehiclePredFilter (p : Prediction) : Bool :=
  vehicleClassMatch p.className && decide (p.score > CONFIG.MIN_VEHICLE_CONFIDENCE)

/-- `vehiclePredictions = predictions.filter(...)`. -/
def detVehicles (preds : List Prediction) : List Prediction :=
  preds.filter vehiclePredFilter

/-- `features && features.length > 0 && features.some(f => keyword && f.probability > 0.5)`
(lines 567–572). -/
def clsVehicleAny (classes : List Classification) : Bool :=
  !classes.isEmpty &&
    classes.any fun f => vehicleKeywordMatch f.className && decide (f.probability > 1/2)

/-- JavaScript `Array.reduce` picking the highest-score prediction
(`current.score > best.score ? current : best`, seeded with the head). -/
def bestByScore (a : Prediction) (l : List Prediction) : Prediction :=
  l.foldl (fun best cur => if cur.score > best.score then cur else best) a

/-- JavaScript `Array.reduce` picking the highest-probability label. -/
def bestByProb (a : Classification) (l : List Classification) : Classification :=
  l.foldl (fun best cur => if cur.probability > best.probability then cur else best) a

/-- The merge policy of `verifyWithModel` once both oracles have answered
(lines 543–599): detection-oracle vehicles win, then classifier keywords,
else the heuristic result is kept with `stabilityScore` nudged down. -/
def mergeVerification (sp : ParkingSpace) (preds : List Prediction)
    (classes : List Classification) : ParkingSpace :=
  match detVehicles preds with
  | p :: ps =>
    let best := bestByScore p ps
    { sp with
        isOccupied := true
        confidence := best.score * CONFIG.CONFIDENCE_BOOST
        vehicleType := some best.className
        features := { sp.features with
          heatmapScore := 1
          stabilityScore := min 1 (sp.features.stabilityScore + 2/10) } }
  | [] =>
    if clsVehicleAny classes then
      match classes with
      | [] => sp
      | c :: cs =>
        let best := bestByProb c cs
        { sp with
            isOccupied := true
            confidence := best.probability * CONFIG.CONFIDENCE_BOOST
            vehicleType := some (String.mk ((splitOnChar best.className.toList ',').headD []))
            features := { sp.features with
              heatmapScore := 1
              stabilityScore := min 1 (sp.features.stabilityScore + 1/10) } }
    else
      { sp with features := { sp.features with
          stabilityScore := max 0 (sp.features.stabilityScore - 1/10) } }

/-- The crop dimensions `(cropHeight, cropWidth)` computed by
`verifyWithModel` (lines 461–492): region bounds are taken in tensor pixel
space (rescaling first when the points are normalized), floored/ceiled and
clamped to the tensor dimensions. -/
def verifyCropDims (h w : ℚ) (r : Region) : ℚ × ℚ :=
  let bounds := if regionIsNormalized r then getRegionBounds (scaleRegion r w h)
                else getRegionBounds r
  let minX : ℚ := max 0 (⌊bounds.minX⌋ : ℚ)
  let minY : ℚ := max 0 (⌊bounds.minY⌋ : ℚ)
  let maxX : ℚ := min w (⌈bounds.maxX⌉ : ℚ)
  let maxY : ℚ := min h (⌈bounds.maxY⌉ : ℚ)
  (maxY - minY, maxX - minX)

/-- `verifyWithModel(space, imageTensor)` (lines 450–609).
`modelsAvailable` stands for `objectDetector && featureExtractor` being
non-null; `h`/`w` are the image tensor's dimensions; `res = none` models the
oracle call throwing (the `catch` branch), `res = some (preds, classes)` a
successful pair of oracle answers. -/
def verifyWithModel : Bool → ℚ → ℚ → ParkingSpace →
    Option (List Prediction × List Classification) → ParkingSpace
  | false, _, _, sp, _ => sp
  | true, h, w, sp, res =>
    if (verifyCropDims h w sp.region).1 < 10 ∨ (verifyCropDims h w sp.region).2 < 10 then sp
    else
      match res with
      | none => sp
      | some pc => mergeVerification sp pc.1 pc.2

/-- Whether the oracle pair actually reported a vehicle for this space:
false on every failure path, and on success exactly when the detection
filter or the classifier keyword check fires. -/
def verifyVehicleReported : Bool → ℚ → ℚ → ParkingSpace →
    Option (List Prediction × List Classification) → Bool
  | false, _, _, _, _ => false
  | true, h, w, sp, res =>
    !(decide ((verifyCropDims h w sp.region).1 < 10)
        || decide ((verifyCropDims h w sp.region).2 < 10))
      && match res with
         | none => false
         | some pc => !(detVehicles pc.1).isEmpty || clsVehicleAny pc.2

/-- `previousSpace?.features.stabilityScore || 0.5` (line 1054): JavaScript
`||` treats the number 0 as falsy, so a carried-over stability score of
exactly 0 is replaced by the 0.5 default. -/
def carriedStability : Option ParkingSpace → ℚ
  | none => 1/2
  | some p => if p.features.stabilityScore = 0 then 1/2 else p.features.stabilityScore

/-- `previousSpace?.stateHistory || []` (line 1089): arrays are always
truthy in JavaScript, so the previous history is kept even when empty. -/
def carriedHistory : Option ParkingSpace → List Bool
  | none => []
  | some p => p.stateHistory

/-- Assembling the heuristic classifier's inputs from the crop measurements,
the shared motion score and the carried-over stability (lines 1045–1054);
`normalizedCount = nonZeroCount / (width * height)`. -/
def mkHeuristicInputs (m : CropMeasurements) (motionScore : ℚ)
    (prev : Option ParkingSpace) : HeuristicInputs :=
  { normalizedCount := m.nonZeroCount / (m.width * m.height)
    shadowScore := m.shadowScore
    dynamicThreshold := m.dynamicThreshold
    colorVariance := m.colorVariance
    textureComplexity := m.textureComplexity
    edgeDensity := m.edgeDensity
    motionScore := motionScore
    stabilityScore := carriedStability prev }

/-- The `normalizedRegion` constructed for the output space (lines 1024–1029):
a literal copy of the validated input region — `{...validRegions[index],
id, type, points: validRegions[index].points}`. -/
def outputRegion (validRegion : Region) : Region :=
  { validRegion with
      id := validRegion.id
      type := validRegion.type
      points := validRegion.points }

/-- The heuristic-only `ParkingSpace` built for one region (lines 1083–1102). -/
def mkHeuristicSpace (index : ℕ) (outRegion : Region) (bounds : RegionBounds)
    (canvasHeight : ℚ) (m : CropMeasurements) (motionScore : ℚ)
    (prev : Option ParkingSpace) (now : ℚ) : ParkingSpace :=
  let f := mkHeuristicInputs m motionScore prev
  { id := index
    region := outRegion
    isOccupied := heuristicIsOccupied f
    confidence := heuristicConfidence f
    lastStateChange := now
    stateHistory := carriedHistory prev
    vehicleType := none
    features :=
      { nonZeroCount := m.nonZeroCount
        brightness := m.brightness
        edgeDensity := m.edgeDensity
        textureComplexity := m.textureComplexity
        perspectiveScore := 1 - ((bounds.minY + bounds.maxY) / 2) / canvasHeight
        heatmapScore := f.normalizedCount
        colorVariance := m.colorVariance
        motionScore := motionScore
        shadowScore := m.shadowScore
        stabilityScore := f.stabilityScore } }

/-- The adaptive verification trigger (lines 1105–1110). -/
def shouldVerify (modelsLoaded useAdaptiveVerification : Bool) (frameCount : ℕ)
    (sp : ParkingSpace) (motionScore occupancyScore dynamicThreshold : ℚ) : Bool :=
  modelsLoaded && useAdaptiveVerification &&
    (decide (frameCount % CONFIG.MODEL_VERIFICATION_INTERVAL = 0)
      || (sp.isOccupied && decide (sp.confidence < 85/100))
      || (!sp.isOccupied && decide (sp.confidence > CONFIG.UNCERTAINTY_THRESHOLD * (8/10)))
      || (decide (motionScore > 25/100)
            && decide (|occupancyScore - dynamicThreshold| < 1/10)))

/-- The result of processing one region: the provisional space, and whether
`verifyWithModel` was invoked for it. -/
structure DetectOutcome where
  space : ParkingSpace
  oracleCalled : Bool
deriving DecidableEq, Repr

/-- The per-region body of `detectParkingSpaces` (lines 1020–1126):
minimum-size rejection, heuristic classification, adaptive verification.
`m` carries the scalar measurements extracted from the region's crop,
`prev` the previous space with the same id, `imgH`/`imgW` the processing
tensor's dimensions and `oracleRes` the (possibly failing) oracle answers. -/
def processRegion (index : ℕ) (validRegion scaledRegion : Region)
    (canvasHeight imgH imgW : ℚ) (m : CropMeasurements) (motionScore : ℚ)
    (prev : Option ParkingSpace) (modelsLoaded useAdaptiveVerification : Bool)
    (frameCount : ℕ) (now : ℚ)
    (oracleRes : Option (List Prediction × List Classification)) : DetectOutcome :=
  let normalizedRegion := outputRegion validRegion
  let bounds := getRegionBounds scaledRegion
  if bounds.width < CONFIG.PARKING_SPACE_MIN_SIZE ∨
      bounds.height < CONFIG.PARKING_SPACE_MIN_SIZE then
    ⟨createEmptySpace index normalizedRegion now, false⟩
  else
    let f := mkHeuristicInputs m motionScore prev
    let space := mkHeuristicSpace index normalizedRegion bounds canvasHeight m motionScore prev now
    if shouldVerify modelsLoaded useAdaptiveVerification frameCount space motionScore
        (heuristicOccupancyScore f) f.dynamicThreshold then
      ⟨verifyWithModel modelsLoaded imgH imgW space oracleRes, true⟩
    else
      ⟨space, false⟩

/-- The bounded rolling state history of the temporal stabilizer
(lines 1314–1317): append the current state, and `shift()` (drop the oldest
entry) when the length exceeds `MIN_CONSECUTIVE_FRAMES * 1.5`. -/
def boundedHistory (prevHist : List Bool) (cur : Bool) : List Bool :=
  let h := prevHist ++ [cur]
  if ((h.length : ℚ) > CONFIG.MIN_CONSECUTIVE_FRAMES * (3/2)) then h.tail else h

/-- The exponential-decay weights `0.85^(length-1-i)` (line 1320). -/
def expWeights (n : ℕ) : List ℚ :=
  (List.range n).map fun i => (85/100 : ℚ) ^ (n - 1 - i)

/-- The weighted sum of "occupied" votes over the history (line 1321). -/
def weightedVoteSum (hist : List Bool) : ℚ :=
  ((hist.zip (expWeights hist.length)).map fun vw => if vw.1 then vw.2 else 0).sum

/-- `weightedAverage = weightedSum / totalWeight` (lines 1322–1323). -/
def weightedAverage (hist : List Bool) : ℚ :=
  weightedVoteSum hist / (expWeights hist.length).sum

/-- The feature-consistency score (lines 1326–1331). -/
def featureConsistencyScore (cur prevF : Features) : ℚ :=
  min 1 ((3/10) * (1 - |cur.edgeDensity - prevF.edgeDensity|)
    + (3/10) * (1 - |cur.textureComplexity - prevF.textureComplexity|)
    + (2/10) * (1 - |cur.colorVariance - prevF.colorVariance|)
    + (2/10) * (1 - |cur.brightness - prevF.brightness|))

/-- The feature-confidence multiplier (lines 1337–1341). -/
def featureConfidenceScore (fe : Features) : ℚ :=
  min 1 ((if fe.edgeDensity > CONFIG.EDGE_DENSITY_THRESHOLD then 12/10 else 8/10)
    * (if fe.textureComplexity > CONFIG.TEXTURE_COMPLEXITY_THRESHOLD then 12/10 else 8/10)
    * (if fe.colorVariance > CONFIG.COLOR_VARIANCE_THRESHOLD then 11/10 else 9/10))

/-- Smoothing of one space against its previous-frame counterpart
(`applyEnhancedTemporalSmoothing`'s map body, lines 1310–1358). -/
def smoothSpace (space prevSpace : ParkingSpace) (now : ℚ) : ParkingSpace :=
  let hist := boundedHistory prevSpace.stateHistory space.isOccupied
  let wavg := weightedAverage hist
  let fc := featureConsistencyScore space.features prevSpace.features
  let sf := (7/10) * space.features.stabilityScore + (3/10) * fc
  let newState : Bool := decide (wavg > (65/100) * sf)
  { space with
      isOccupied := newState
      stateHistory := hist
      lastStateChange := if newState = prevSpace.isOccupied
        then prevSpace.lastStateChange else now
      confidence := min 1 (wavg * sf * featureConfidenceScore space.features)
      features := { space.features with
        stabilityScore := if newState = prevSpace.isOccupied
          then min 1 (space.features.stabilityScore + 8/100)
          else max 0 (space.features.stabilityScore - 15/100) } }

/-- `applyEnhancedTemporalSmoothing(currentSpaces, previousSpaces)`
(lines 1305–1359): pass-through when there is no previous list or smoothing
is disabled, otherwise smooth each space against its id-matched predecessor. -/
def applyEnhancedTemporalSmoothing (currentSpaces previousSpaces : List ParkingSpace)
    (useTemporalSmoothing : Bool) (now : ℚ) : List ParkingSpace :=
  if previousSpaces.isEmpty || !useTemporalSmoothing then currentSpaces
  else
    currentSpaces.map fun space =>
      match previousSpaces.find? (fun s => s.id == space.id) with
      | none => space
      | some prevSpace => smoothSpace space prevSpace now

/-- An RGB pixel with channel values in `[0,1]` (the processing tensor is
`fromPixels(...)/255`). -/
def RGBPixel : Type := ℚ × ℚ × ℚ

/-- A processed frame as a flat list of RGB pixels. -/
def Frame : Type := List RGBPixel

/-- `tf.image.rgbToGrayscale`: the luma conversion applied by the motion
estimator (standard 0.2989/0.587/0.114 weights of the tensor library). -/
def rgbToGrayscale (p : RGBPixel) : ℚ :=
  (2989/10000) * p.1 + (587/1000) * p.2.1 + (114/1000) * p.2.2

/-- `calculateEnhancedMotionScore` (lines 1191–1210): 0 without a previous
frame, otherwise the fraction of pixels whose grayscale absolute difference
exceeds 0.05, with the pixel count taken from the current frame. -/
def calculateEnhancedMotionScore (currentFrame : Frame) : Option Frame → ℚ
  | none => 0
  | some previousFrame =>
    let currentGray := currentFrame.map rgbToGrayscale
    let previousGray := previousFrame.map rgbToGrayscale
    let diffs := List.zipWith (fun a b => |a - b|) currentGray previousGray
    let changedPixels := (diffs.filter fun d => decide (d > 5/100)).length
    (changedPixels : ℚ) / (currentGray.length : ℚ)

/-- The modulo clause of the frame-skip condition,
`frameCount % CONFIG.MAX_FRAME_SKIP !== 0` (line 785), under JavaScript
number semantics: `n % 0` evaluates to `NaN`, and `NaN !== 0` is true, so
the clause holds whenever the divisor is 0. -/
def frameModuloSkipCheck (frameCount maxFrameSkip : ℕ) : Bool :=
  if maxFrameSkip = 0 then true else decide (frameCount % maxFrameSkip ≠ 0)

/-- The full frame-skip early-return condition (line 785):
`timeDiff < 1000 / 30 && frameCount > 0 && frameCount % MAX_FRAME_SKIP !== 0`. -/
def shouldSkipFrame (timeDiff : ℚ) (frameCount maxFrameSkip : ℕ) : Bool :=
  decide (timeDiff < 1000/30) && decide (0 < frameCount)
    && frameModuloSkipCheck frameCount maxFrameSkip

/- Concrete sample inputs used by counterexamples and witnesses. -/

/-- A full-frame region in normalized coordinates. -/
def wideRegion : Region :=
  { id := "r1", points := [⟨0, 0⟩, ⟨1, 0⟩, ⟨1, 1⟩, ⟨0, 1⟩], type := RegionType.quadrilateral }

/-- A region supplied in absolute pixel coordinates (100×50 bounding box). -/
def pixelRegion : Region :=
  { id := "r2", points := [⟨0, 0⟩, ⟨100, 0⟩, ⟨100, 50⟩, ⟨0, 50⟩], type := RegionType.quadrilateral }

/-- A region whose scaled bounding box is 10×10, below the 20px minimum. -/
def tinyRegion : Region :=
  { id := "tiny", points := [⟨0, 0⟩, ⟨10, 0⟩, ⟨10, 10⟩, ⟨0, 10⟩], type := RegionType.rectangle }

/-- Crop measurements of a dark, featureless region. -/
def cmDark : CropMeasurements :=
  { width := 1280, height := 720, nonZeroCount := 0, brightness := 0, shadowScore := 0,
    dynamicThreshold := 1/2, colorVariance := 0, textureComplexity := 0, edgeDensity := 0 }

/-- A detection-oracle answer: one "car" box at score 0.9. -/
def carPrediction : Prediction := { className := "car", score := 9/10 }

/-- A neutral sample space. -/
def sampleSpace : ParkingSpace := createEmptySpace 0 wideRegion 0

/-- The sample space marked occupied. -/
def sampleSpaceOcc : ParkingSpace := { sampleSpace with isOccupied := true }

/-- The heuristic-pipeline output for the full-frame region when the
detection oracle reports a car at score 0.9 on frame 3 (a periodic
verification frame), with no previous spaces. -/
def c2HeuristicOut : ParkingSpace :=
  (processRegion 0 wideRegion (scaleRegion wideRegion 1280 720) 720 720 1280
    cmDark 0 none true true 3 0 (some ([carPrediction], []))).space

/-- The per-region pipeline output for the too-small region. -/
def c3SmallOut : ParkingSpace :=
  (processRegion 0 tinyRegion tinyRegion 720 720 1280
    cmDark 0 (some (createEmptySpace 0 tinyRegion 0)) true true 3 77 none).space

/-- A space entering the stabilizer with stability score 0. -/
def c7Cur : ParkingSpace :=
  { id := 0
    region := tinyRegion
    isOccupied := false
    confidence := 0
    lastStateChange := 0
    stateHistory := []
    vehicleType := none
    features :=
      { nonZeroCount := 0
        brightness := 0
        edgeDensity := 0
        textureComplexity := 0
        perspectiveScore := 0
        heatmapScore := 0
        colorVariance := 0
        motionScore := 0
        shadowScore := 0
        stabilityScore := 0 } }

/-- Its previous-frame counterpart: occupied, stability score also 0. -/
def c7Prev : ParkingSpace :=
  { c7Cur with isOccupied := true }

/-! ### Theorems -/

section Lemmas

theorem verifyWithModel_small (h w : ℚ) (sp : ParkingSpace)
    (res : Option (List Prediction × List Classification))
    (hsm : (verifyCropDims h w sp.region).1 < 10 ∨ (verifyCropDims h w sp.region).2 < 10) :
    verifyWithModel true h w sp res = sp := by
  simp only [verifyWithModel]
  rw [if_pos hsm]

theorem verifyWithModel_throw (h w : ℚ) (sp : ParkingSpace) :
    verifyWithModel true h w sp none = sp := by
  simp only [verifyWithModel]
  split
  · rfl
  · rfl

theorem verifyWithModel_ok (h w : ℚ) (sp : ParkingSpace)
    (pc : List Prediction × List Classification)
    (hsm : ¬((verifyCropDims h w sp.region).1 < 10 ∨ (verifyCropDims h w sp.region).2 < 10)) :
    verifyWithModel true h w sp (some pc) = mergeVerification sp pc.1 pc.2 := by
  simp only [verifyWithModel]
  rw [if_neg hsm]

theorem mergeVerification_det (sp : ParkingSpace) (preds : List Prediction)
    (classes : List Classification) (p : Prediction) (ps : List Prediction)
    (hdv : detVehicles preds = p :: ps) :
    mergeVerification sp preds classes =
      { sp with
          isOccupied := true
          confidence := (bestByScore p ps).score * CONFIG.CONFIDENCE_BOOST
          vehicleType := some (bestByScore p ps).className
          features := { sp.features with
            heatmapScore := 1
            stabilityScore := min 1 (sp.features.stabilityScore + 2/10) } } := by
  simp only [mergeVerification]
  rw [hdv]

theorem mergeVerification_cls (sp : ParkingSpace) (preds : List Prediction)
    (c : Classification) (cs : List Classification)
    (hdv : detVehicles preds = []) (hcv : clsVehicleAny (c :: cs) = true) :
    mergeVerification sp preds (c :: cs) =
      { sp with
          isOccupied := true
          confidence := (bestByProb c cs).probability * CONFIG.CONFIDENCE_BOOST
          vehicleType := some (String.mk
            ((splitOnChar (bestByProb c cs).className.toList ',').headD []))
          features := { sp.features with
            heatmapScore := 1
            stabilityScore := min 1 (sp.features.stabilityScore + 1/10) } } := by
  simp only [mergeVerification]
  rw [hdv]
  rw [if_pos hcv]

theorem mergeVerification_keep (sp : ParkingSpace) (preds : List Prediction)
    (classes : List Classification)
    (hdv : detVehicles preds = []) (hcv : clsVehicleAny classes = false) :
    mergeVerification sp preds classes =
      { sp with features := { sp.features with
          stabilityScore := max 0 (sp.features.stabilityScore - 1/10) } } := by
  simp only [mergeVerification]
  rw [hdv]
  rw [if_neg (by simp [hcv])]

end Lemmas
/-- Claim C1: the heuristic classifier decides
`isOccupied = !isShadow AND occupancyScore > dynamicThreshold` with
`isShadow = shadowScore < 0.45` and the weighted occupancy score
`0.35*coverage + 0.25*[texture] + 0.25*[edges] + 0.10*[color] + 0.05*[motion]`;
in particular any feature set with `shadowScore < 0.45` is classified
unoccupied regardless of the occupancy score's magnitude. -/
theorem c1_heuristic_classifier (f : HeuristicInputs) :
    (heuristicIsOccupied f = true ↔
      CONFIG.SHADOW_THRESHOLD ≤ f.shadowScore ∧
        f.dynamicThreshold < heuristicOccupancyScore f)
    ∧ heuristicOccupancyScore f =
        (35/100) * f.normalizedCount
          + (25/100) * (if f.textureComplexity > CONFIG.TEXTURE_COMPLEXITY_THRESHOLD then 1 else 0)
          + (25/100) * (if f.edgeDensity > CONFIG.EDGE_DENSITY_THRESHOLD then 1 else 0)
          + (10/100) * (if f.colorVariance > CONFIG.COLOR_VARIANCE_THRESHOLD then 1 else 0)
          + (5/100) * (if f.motionScore > CONFIG.MOTION_INFLUENCE * f.stabilityScore then 1 else 0)
    ∧ (f.shadowScore < CONFIG.SHADOW_THRESHOLD → heuristicIsOccupied f = false) := by
  refine ⟨?_, ?_, ?_⟩
  · simp [heuristicIsOccupied, heuristicIsShadow, not_lt, and_comm]
  · simp only [heuristicOccupancyScore]
    split <;> split <;> split <;> split <;> ring
  · intro h
    simp [heuristicIsOccupied, heuristicIsShadow, h]

/-- Witness for C1: a feature set with shadow score 0 (< 0.45) and an
enormous occupancy score (coverage 100, all boosts firing) is still
classified unoccupied by the heuristic. -/
theorem c1_witness :
    ((⟨100, 0, 1/2, 1, 1, 1, 1, 1/2⟩ : HeuristicInputs).shadowScore < CONFIG.SHADOW_THRESHOLD)
    ∧ heuristicIsOccupied ⟨100, 0, 1/2, 1, 1, 1, 1, 1/2⟩ = false :=
  ⟨by norm_num [CONFIG.SHADOW_THRESHOLD],
    (c1_heuristic_classifier ⟨100, 0, 1/2, 1, 1, 1, 1, 1/2⟩).2.2
      (by norm_num [CONFIG.SHADOW_THRESHOLD])⟩

/-- Claim C4: on any verification failure — oracles not loaded, crop smaller
than 10×10, or the oracle call throwing — `verifyWithModel` returns its
input space unchanged, never altering the heuristic-derived result. -/
theorem c4_verification_failure_noop (h w : ℚ) (sp : ParkingSpace)
    (res : Option (List Prediction × List Classification)) :
    verifyWithModel false h w sp res = sp
    ∧ verifyWithModel true h w sp none = sp
    ∧ ((verifyCropDims h w sp.region).1 < 10 ∨ (verifyCropDims h w sp.region).2 < 10 →
        verifyWithModel true h w sp res = sp) :=
  ⟨rfl, verifyWithModel_throw h w sp, fun hsm => verifyWithModel_small h w sp res hsm⟩

/-- Witness for C4: with a 0×0 image tensor the crop of the sample space's
region is below 10×10, so verification with a positive oracle answer is
still a no-op. -/
theorem c4_witness :
    ((verifyCropDims 0 0 sampleSpace.region).1 < 10 ∨
      (verifyCropDims 0 0 sampleSpace.region).2 < 10)
    ∧ verifyWithModel true 0 0 sampleSpace (some ([carPrediction], [])) = sampleSpace :=
  ⟨by
    norm_num [verifyCropDims, sampleSpace, wideRegion, createEmptySpace, regionIsNormalized,
      scaleRegion, getRegionBounds, listMinD, listMaxD],
    (c4_verification_failure_noop 0 0 sampleSpace (some ([carPrediction], []))).2.2
      (by
        norm_num [verifyCropDims, sampleSpace, wideRegion, createEmptySpace, regionIsNormalized,
          scaleRegion, getRegionBounds, listMinD, listMaxD])⟩

/-- Claim C10: `verifyWithModel` is monotone toward occupancy — it never
turns an occupied space unoccupied; the returned occupancy is exactly
`input occupied OR an oracle reported a vehicle`; and when no vehicle is
reported, every field except `features.stabilityScore` (and
`features.heatmapScore`) equals the input's. -/
theorem c10_verification_monotone (b : Bool) (h w : ℚ) (sp : ParkingSpace)
    (res : Option (List Prediction × List Classification)) :
    (sp.isOccupied = true → (verifyWithModel b h w sp res).isOccupied = true)
    ∧ (verifyWithModel b h w sp res).isOccupied
        = (sp.isOccupied || verifyVehicleReported b h w sp res)
    ∧ (verifyVehicleReported b h w sp res = false →
        (verifyWithModel b h w sp res).id = sp.id
        ∧ (verifyWithModel b h w sp res).region = sp.region
        ∧ (verifyWithModel b h w sp res).isOccupied = sp.isOccupied
        ∧ (verifyWithModel b h w sp res).confidence = sp.confidence
        ∧ (verifyWithModel b h w sp res).lastStateChange = sp.lastStateChange
        ∧ (verifyWithModel b h w sp res).stateHistory = sp.stateHistory
        ∧ (verifyWithModel b h w sp res).vehicleType = sp.vehicleType
        ∧ (verifyWithModel b h w sp res).features.nonZeroCount = sp.features.nonZeroCount
        ∧ (verifyWithModel b h w sp res).features.brightness = sp.features.brightness
        ∧ (verifyWithModel b h w sp res).features.edgeDensity = sp.features.edgeDensity
        ∧ (verifyWithModel b h w sp res).features.textureComplexity
            = sp.features.textureComplexity
        ∧ (verifyWithModel b h w sp res).features.perspectiveScore
            = sp.features.perspectiveScore
        ∧ (verifyWithModel b h w sp res).features.colorVariance = sp.features.colorVariance
        ∧ (verifyWithModel b h w sp res).features.motionScore = sp.features.motionScore
        ∧ (verifyWithModel b h w sp res).features.shadowScore = sp.features.shadowScore) := by
  cases b with
  | false =>
    exact ⟨fun h2 => h2, (Bool.or_false _).symm,
      fun _ => ⟨rfl, rfl, rfl, rfl, rfl, rfl, rfl, rfl, rfl, rfl, rfl, rfl, rfl, rfl, rfl⟩⟩
  | true =>
    by_cases hsm : (verifyCropDims h w sp.region).1 < 10 ∨ (verifyCropDims h w sp.region).2 < 10
    · rw [verifyWithModel_small h w sp res hsm]
      have hr : verifyVehicleReported true h w sp res = false := by
        simp only [verifyVehicleReported]
        rcases hsm with hsm | hsm <;> simp [hsm]
      rw [hr]
      exact ⟨fun h2 => h2, (Bool.or_false _).symm,
        fun _ => ⟨rfl, rfl, rfl, rfl, rfl, rfl, rfl, rfl, rfl, rfl, rfl, rfl, rfl, rfl, rfl⟩⟩
    · push_neg at hsm
      have hsm' : ¬((verifyCropDims h w sp.region).1 < 10 ∨
          (verifyCropDims h w sp.region).2 < 10) := by push_neg; exact hsm
      cases res with
      | none =>
        rw [verifyWithModel_throw h w sp]
        have hr : verifyVehicleReported true h w sp none = false := by
          simp only [verifyVehicleReported, Bool.and_false]
        rw [hr]
        exact ⟨fun h2 => h2, (Bool.or_false _).symm,
          fun _ => ⟨rfl, rfl, rfl, rfl, rfl, rfl, rfl, rfl, rfl, rfl, rfl, rfl, rfl, rfl, rfl⟩⟩
      | some pc =>
        rw [verifyWithModel_ok h w sp pc hsm']
        have hr : verifyVehicleReported true h w sp (some pc)
            = (!(detVehicles pc.1).isEmpty || clsVehicleAny pc.2) := by
          simp only [verifyVehicleReported, not_lt.mpr hsm.1, not_lt.mpr hsm.2,
            decide_False, Bool.or_self, Bool.not_false, Bool.true_and]
        rw [hr]
        rcases hdv : detVehicles pc.1 with _ | ⟨p, ps⟩
        · by_cases hcv : clsVehicleAny pc.2 = true
          · rcases hcl : pc.2 with _ | ⟨c, cs⟩
            · rw [hcl] at hcv
              simp [clsVehicleAny] at hcv
            · rw [hcl] at hcv
              rw [mergeVerification_cls sp pc.1 c cs hdv hcv]
              simp [hcv]
          · have hcv' : clsVehicleAny pc.2 = false := by
              simpa using hcv
            rw [mergeVerification_keep sp pc.1 pc.2 hdv hcv', hcv']
            simp
        · rw [mergeVerification_det sp pc.1 pc.2 p ps hdv]
          simp

/-- Witness for C10: a no-vehicle verification keeps an occupied space
occupied and leaves its confidence unchanged. -/
theorem c10_witness :
    sampleSpaceOcc.isOccupied = true
    ∧ (verifyWithModel false 0 0 sampleSpaceOcc none).isOccupied = true
    ∧ (verifyWithModel false 0 0 sampleSpaceOcc none).confidence
        = sampleSpaceOcc.confidence := by
  exact ⟨rfl, (c10_verification_monotone false 0 0 sampleSpaceOcc none).1 rfl,
    ((c10_verification_monotone false 0 0 sampleSpaceOcc none).2.2 rfl).2.2.2.1⟩

/-- Counterexample for C2: with no previous spaces (so temporal smoothing
passes through) and the detection oracle reporting a car at score 0.9 on a
periodic verification frame, the pipeline's output confidence is
`0.9 × 1.2 = 1.08 > 1` — the 1.2 boost is NOT capped at 1.0 in the output. -/
theorem c2_counterexample :
    (applyEnhancedTemporalSmoothing [c2HeuristicOut] [] true 0).map
        (fun sp => sp.confidence) = [27/25]
    ∧ (applyEnhancedTemporalSmoothing [c2HeuristicOut] [] true 0).all
        (fun sp => decide (sp.confidence ≤ 1)) = false := by
  have hcar : vehicleClassMatch "car" = true := by decide
  have hconf : c2HeuristicOut.confidence = 27/25 := by
    norm_num [c2HeuristicOut, processRegion, outputRegion, wideRegion, scaleRegion,
      getRegionBounds, listMinD, listMaxD, CONFIG.PARKING_SPACE_MIN_SIZE,
      mkHeuristicSpace, mkHeuristicInputs, carriedStability, carriedHistory, cmDark,
      shouldVerify, CONFIG.MODEL_VERIFICATION_INTERVAL, heuristicIsOccupied,
      heuristicIsShadow, heuristicOccupancyScore, heuristicConfidence,
      CONFIG.SHADOW_THRESHOLD, CONFIG.TEXTURE_COMPLEXITY_THRESHOLD,
      CONFIG.EDGE_DENSITY_THRESHOLD, CONFIG.COLOR_VARIANCE_THRESHOLD,
      CONFIG.MOTION_INFLUENCE, CONFIG.UNCERTAINTY_THRESHOLD, verifyWithModel,
      verifyCropDims, regionIsNormalized, mergeVerification, detVehicles,
      vehiclePredFilter, carPrediction, bestByScore, CONFIG.MIN_VEHICLE_CONFIDENCE,
      CONFIG.CONFIDENCE_BOOST, hcar]
  have hsm : applyEnhancedTemporalSmoothing [c2HeuristicOut] [] true 0
      = [c2HeuristicOut] := by
    simp [applyEnhancedTemporalSmoothing]
  rw [hsm]
  refine ⟨by simp [hconf], ?_⟩
  simp only [List.all_cons, List.all_nil, Bool.and_true, hconf]
  norm_num

/-- Claim C2 amended: the heuristic-derived confidence does lie in `[0,1]`
(whenever the shared motion score is nonnegative), but the detection-oracle
merge sets `confidence = bestScore × 1.2` with no cap, so an oracle score of
0.9 yields an output confidence of 1.08 > 1. -/
theorem c2_amended_confidence :
    (∀ f : HeuristicInputs, 0 ≤ f.motionScore →
      0 ≤ heuristicConfidence f ∧ heuristicConfidence f ≤ 1)
    ∧ (∀ (sp : ParkingSpace) (preds : List Prediction) (classes : List Classification)
        (p : Prediction) (ps : List Prediction), detVehicles preds = p :: ps →
        (mergeVerification sp preds classes).confidence
          = (bestByScore p ps).score * CONFIG.CONFIDENCE_BOOST) := by
  constructor
  · intro f hm
    constructor
    · simp only [heuristicConfidence]
      refine le_min (by norm_num) ?_
      refine mul_nonneg (mul_nonneg ?_ ?_) ?_
      · split
        · norm_num
        · exact le_trans (by norm_num) (le_max_left (1/2) _)
      · have h2 : (0:ℚ) ≤ (2/10) * f.motionScore := by
          exact mul_nonneg (by norm_num) hm
        linarith
      · exact le_trans (by norm_num) (le_max_left (7/10) _)
    · simp only [heuristicConfidence]
      exact min_le_left _ _
  · intro sp preds classes p ps hdv
    rw [mergeVerification_det sp preds classes p ps hdv]

/-- Witness for C2's amended claim: concrete applications of both parts. -/
theorem c2_witness :
    (0 ≤ (⟨0, 1, 1/2, 0, 0, 0, 0, 1/2⟩ : HeuristicInputs).motionScore)
    ∧ 0 ≤ heuristicConfidence ⟨0, 1, 1/2, 0, 0, 0, 0, 1/2⟩
    ∧ heuristicConfidence ⟨0, 1, 1/2, 0, 0, 0, 0, 1/2⟩ ≤ 1
    ∧ detVehicles [carPrediction] = [carPrediction]
    ∧ (mergeVerification sampleSpace [carPrediction] []).confidence
        = (bestByScore carPrediction []).score * CONFIG.CONFIDENCE_BOOST := by
  have hcar : vehicleClassMatch "car" = true := by decide
  have hdet : detVehicles [carPrediction] = [carPrediction] := by
    norm_num [detVehicles, vehiclePredFilter, carPrediction, hcar,
      CONFIG.MIN_VEHICLE_CONFIDENCE, List.filter]
  refine ⟨by norm_num, (c2_amended_confidence.1 _ (by norm_num)).1,
    (c2_amended_confidence.1 _ (by norm_num)).2, hdet,
    c2_amended_confidence.2 sampleSpace [carPrediction] [] carPrediction [] hdet⟩

/-- Counterexample for C3: a too-small region does yield the empty space from
the per-region pipeline, but `detectParkingSpaces` then runs temporal
smoothing over it; with a matching previous space the output stability score
becomes `min(1, 0.5 + 0.08) = 0.58 ≠ 0.5`, so the claimed output fields do
not survive to the returned spaces. -/
theorem c3_counterexample :
    (applyEnhancedTemporalSmoothing [c3SmallOut]
        [createEmptySpace 0 tinyRegion 0] true 99).map
        (fun sp => sp.features.stabilityScore) = [29/50]
    ∧ (applyEnhancedTemporalSmoothing [c3SmallOut]
        [createEmptySpace 0 tinyRegion 0] true 99).all
        (fun sp => decide (sp.features.stabilityScore = 1/2)) = false := by
  have hout : (applyEnhancedTemporalSmoothing [c3SmallOut]
      [createEmptySpace 0 tinyRegion 0] true 99).map
      (fun sp => sp.features.stabilityScore) = [29/50] := by
    norm_num [applyEnhancedTemporalSmoothing, smoothSpace, boundedHistory,
      weightedAverage, weightedVoteSum, expWeights, featureConsistencyScore,
      featureConfidenceScore, createEmptySpace, c3SmallOut, processRegion,
      outputRegion, tinyRegion, getRegionBounds, listMinD, listMaxD,
      CONFIG.PARKING_SPACE_MIN_SIZE, CONFIG.MIN_CONSECUTIVE_FRAMES,
      CONFIG.EDGE_DENSITY_THRESHOLD, CONFIG.TEXTURE_COMPLEXITY_THRESHOLD,
      CONFIG.COLOR_VARIANCE_THRESHOLD, List.find?, List.zip, List.zipWith,
      List.range, List.range.loop]
  refine ⟨hout, ?_⟩
  rcases hlist : applyEnhancedTemporalSmoothing [c3SmallOut]
      [createEmptySpace 0 tinyRegion 0] true 99 with _ | ⟨a, rest⟩
  · rw [hlist] at hout
    simp at hout
  · rw [hlist] at hout
    rcases rest with _ | ⟨b, rest2⟩
    · simp only [List.map_cons, List.map_nil, List.cons.injEq, and_true] at hout
      simp only [List.all_cons, List.all_nil, Bool.and_true, decide_eq_false_iff_not]
      rw [hout]
      norm_num
    · simp at hout

/-- Claim C3 amended: for every region whose scaled bounding box is smaller
than 20px in width or height, the per-region pipeline (before temporal
smoothing) returns exactly the empty space — `isOccupied = false`,
`confidence = 0`, `stabilityScore = 0.5` — and makes no oracle call;
temporal smoothing may subsequently adjust these fields when a matching
previous space exists. -/
theorem c3_small_region_short_circuit (index : ℕ) (vr sr : Region)
    (ch ih iw : ℚ) (m : CropMeasurements) (ms : ℚ) (prev : Option ParkingSpace)
    (ml uav : Bool) (fcnt : ℕ) (now : ℚ)
    (res : Option (List Prediction × List Classification))
    (hsmall : (getRegionBounds sr).width < CONFIG.PARKING_SPACE_MIN_SIZE ∨
      (getRegionBounds sr).height < CONFIG.PARKING_SPACE_MIN_SIZE) :
    processRegion index vr sr ch ih iw m ms prev ml uav fcnt now res
      = ⟨createEmptySpace index (outputRegion vr) now, false⟩
    ∧ (processRegion index vr sr ch ih iw m ms prev ml uav fcnt now res).oracleCalled
        = false
    ∧ (processRegion index vr sr ch ih iw m ms prev ml uav fcnt now res).space.isOccupied
        = false
    ∧ (processRegion index vr sr ch ih iw m ms prev ml uav fcnt now res).space.confidence
        = 0
    ∧ (processRegion index vr sr ch ih iw m ms prev ml uav fcnt
        now res).space.features.stabilityScore = 1/2 := by
  have h1 : processRegion index vr sr ch ih iw m ms prev ml uav fcnt now res
      = ⟨createEmptySpace index (outputRegion vr) now, false⟩ := by
    simp only [processRegion]
    rw [if_pos hsmall]
  exact ⟨h1, by rw [h1], by rw [h1]; rfl, by rw [h1]; rfl, by rw [h1]; rfl⟩

/-- Witness for C3's amended claim: the 10×10 region is below the minimum
size and yields the empty space with no oracle call. -/
theorem c3_witness :
    ((getRegionBounds tinyRegion).width < CONFIG.PARKING_SPACE_MIN_SIZE ∨
      (getRegionBounds tinyRegion).height < CONFIG.PARKING_SPACE_MIN_SIZE)
    ∧ (processRegion 0 tinyRegion tinyRegion 720 720 1280 cmDark 0 none
        true true 3 77 none).space = createEmptySpace 0 (outputRegion tinyRegion) 77
    ∧ (processRegion 0 tinyRegion tinyRegion 720 720 1280 cmDark 0 none
        true true 3 77 none).oracleCalled = false := by
  have hsmall : (getRegionBounds tinyRegion).width < CONFIG.PARKING_SPACE_MIN_SIZE ∨
      (getRegionBounds tinyRegion).height < CONFIG.PARKING_SPACE_MIN_SIZE := by
    norm_num [getRegionBounds, tinyRegion, listMinD, listMaxD,
      CONFIG.PARKING_SPACE_MIN_SIZE]
  have h := c3_small_region_short_circuit 0 tinyRegion tinyRegion 720 720 1280
    cmDark 0 none true true 3 77 none hsmall
  exact ⟨hsmall, by rw [h.1], h.2.1⟩

/-- Claim C5 (code bug): the output space's region is the input region copied
verbatim, so a region supplied in absolute pixel coordinates is emitted
un-normalized, contradicting the claim (and the code's own comments) that
output regions are always in normalized [0,1] coordinates. -/
theorem c5_pixel_region_not_normalized :
    regionIsNormalized pixelRegion = false
    ∧ (processRegion 1 pixelRegion pixelRegion 720 720 1280 cmDark 0 none
        false true 4 0 none).space.region = pixelRegion
    ∧ regionIsNormalized ((processRegion 1 pixelRegion pixelRegion 720 720 1280 cmDark 0
        none false true 4 0 none).space.region) = false := by
  have hnotnorm : regionIsNormalized pixelRegion = false := by decide
  have hreg : (processRegion 1 pixelRegion pixelRegion 720 720 1280 cmDark 0 none
      false true 4 0 none).space.region = pixelRegion := by
    norm_num [processRegion, getRegionBounds, pixelRegion, listMinD, listMaxD,
      CONFIG.PARKING_SPACE_MIN_SIZE, shouldVerify, mkHeuristicSpace, mkHeuristicInputs,
      outputRegion]
  exact ⟨hnotnorm, hreg, by rw [hreg]; exact hnotnorm⟩

/-- Claim C6: the smoothed state history is bounded by
`⌈MIN_CONSECUTIVE_FRAMES × 1.5⌉ = 5` — the bound is preserved by every
smoothing call (so it holds after any detection call, histories starting
empty), and when the bound is reached the oldest entry is evicted first
(the appended history's head is dropped). -/
theorem c6_bounded_history :
    (∀ (hist : List Bool) (b : Bool), hist.length ≤ 5 →
      (boundedHistory hist b).length ≤ 5)
    ∧ (∀ (hist : List Bool) (b : Bool), 4 ≤ hist.length →
      boundedHistory hist b = (hist ++ [b]).tail)
    ∧ (∀ (cur prev : List ParkingSpace) (useTS : Bool) (now : ℚ),
        (∀ p ∈ prev, p.stateHistory.length ≤ 5) →
        (∀ s ∈ cur, s.stateHistory.length ≤ 5) →
        ∀ out ∈ applyEnhancedTemporalSmoothing cur prev useTS now,
          out.stateHistory.length ≤ 5) := by
  have P1 : ∀ (hist : List Bool) (b : Bool), hist.length ≤ 5 →
      (boundedHistory hist b).length ≤ 5 := by
    intro hist b hh
    simp only [boundedHistory]
    by_cases hc : (((hist ++ [b]).length : ℚ) > CONFIG.MIN_CONSECUTIVE_FRAMES * (3/2))
    · rw [if_pos hc]
      simp only [List.length_tail, List.length_append, List.length_cons, List.length_nil]
      omega
    · rw [if_neg hc]
      rw [not_lt] at hc
      have h5 : ((hist ++ [b]).length : ℚ) < 5 := by
        calc ((hist ++ [b]).length : ℚ) ≤ CONFIG.MIN_CONSECUTIVE_FRAMES * (3/2) := hc
        _ < 5 := by norm_num [CONFIG.MIN_CONSECUTIVE_FRAMES]
      have h5' : (hist ++ [b]).length < 5 := by exact_mod_cast h5
      simp only [List.length_append, List.length_cons, List.length_nil] at h5' ⊢
      omega
  refine ⟨P1, ?_, ?_⟩
  · intro hist b hh
    simp only [boundedHistory]
    rw [if_pos]
    have h4 : (4:ℚ) ≤ (hist.length : ℚ) := by exact_mod_cast hh
    simp only [List.length_append, List.length_cons, List.length_nil]
    push_cast
    norm_num [CONFIG.MIN_CONSECUTIVE_FRAMES]
    linarith
  · intro cur prev useTS now hprev hcur out hout
    simp only [applyEnhancedTemporalSmoothing] at hout
    by_cases hempty : (prev.isEmpty || !useTS) = true
    · rw [if_pos hempty] at hout
      exact hcur out hout
    · rw [if_neg hempty] at hout
      rcases List.mem_map.mp hout with ⟨s, hs, rfl⟩
      rcases hfind : prev.find? (fun q => q.id == s.id) with _ | p
      · simp only [hfind]
        exact hcur s hs
      · simp only [hfind]
        have hp : p ∈ prev := List.mem_of_find?_eq_some hfind
        have hsm : (smoothSpace s p now).stateHistory
            = boundedHistory p.stateHistory s.isOccupied := rfl
        rw [hsm]
        exact P1 _ _ (hprev p hp)

/-- Witness for C6: concrete applications of all three parts. -/
theorem c6_witness :
    ([true, true, true, true, true] : List Bool).length ≤ 5
    ∧ (boundedHistory [true, true, true, true, true] false).length ≤ 5
    ∧ 4 ≤ ([true, true, true, true] : List Bool).length
    ∧ boundedHistory [true, true, true, true] false
        = ([true, true, true, true] ++ [false]).tail
    ∧ sampleSpace.stateHistory.length ≤ 5 := by
  refine ⟨by norm_num, c6_bounded_history.1 _ _ (by norm_num), by norm_num,
    c6_bounded_history.2.1 _ _ (by norm_num),
    c6_bounded_history.2.2 [sampleSpace] [] true 0 (by intro p hp; simp at hp)
      (by
        intro s hs
        simp only [List.mem_singleton] at hs
        subst hs
        norm_num [sampleSpace, createEmptySpace])
      sampleSpace (by simp [applyEnhancedTemporalSmoothing])⟩

/-- Counterexample for C7: a space entering the stabilizer with stability
score 0 whose state flips gets `max(0, 0 - 0.15) = 0` — equal to, not
strictly lower than, the previous score. -/
theorem c7_counterexample :
    (smoothSpace c7Cur c7Prev 5).isOccupied ≠ c7Prev.isOccupied
    ∧ (smoothSpace c7Cur c7Prev 5).features.stabilityScore
        = c7Cur.features.stabilityScore
    ∧ c7Cur.features.stabilityScore = c7Prev.features.stabilityScore := by
  refine ⟨?_, ?_, rfl⟩
  · have hocc : (smoothSpace c7Cur c7Prev 5).isOccupied = false := by
      norm_num [smoothSpace, c7Cur, c7Prev, boundedHistory, weightedAverage,
        weightedVoteSum, expWeights, featureConsistencyScore, featureConfidenceScore,
        CONFIG.MIN_CONSECUTIVE_FRAMES, List.zip, List.zipWith, List.range, List.range.loop]
    rw [hocc]
    simp [c7Prev, c7Cur]
  · norm_num [smoothSpace, c7Cur, c7Prev, boundedHistory, weightedAverage,
      weightedVoteSum, expWeights, featureConsistencyScore, featureConfidenceScore,
      CONFIG.MIN_CONSECUTIVE_FRAMES, List.zip, List.zipWith, List.range, List.range.loop]

/-- Claim C7 amended: in one stabilizer step, if the final state equals the
previous frame's state the stability score does not decrease (given the
incoming score is ≤ 1, increase of 0.08 capped at 1); if the state flipped
it does not increase (given the incoming score is ≥ 0), and it strictly
decreases whenever the incoming score is positive — but when the incoming
score is already 0 the flip leaves it unchanged at the floor. -/
theorem c7_stability_monotonicity (sp prev : ParkingSpace) (now : ℚ) :
    ((smoothSpace sp prev now).isOccupied = prev.isOccupied →
      sp.features.stabilityScore ≤ 1 →
      sp.features.stabilityScore ≤ (smoothSpace sp prev now).features.stabilityScore)
    ∧ ((smoothSpace sp prev now).isOccupied ≠ prev.isOccupied →
      0 ≤ sp.features.stabilityScore →
      (smoothSpace sp prev now).features.stabilityScore ≤ sp.features.stabilityScore
      ∧ (0 < sp.features.stabilityScore →
        (smoothSpace sp prev now).features.stabilityScore
          < sp.features.stabilityScore)) := by
  have hstab : (smoothSpace sp prev now).features.stabilityScore
      = (if (smoothSpace sp prev now).isOccupied = prev.isOccupied
          then min 1 (sp.features.stabilityScore + 8/100)
          else max 0 (sp.features.stabilityScore - 15/100)) := rfl
  constructor
  · intro h h1
    rw [hstab, if_pos h]
    exact le_min h1 (by linarith)
  · intro h h0
    rw [hstab, if_neg h]
    constructor
    · exact max_le h0 (by linarith)
    · intro hpos
      exact max_lt hpos (by linarith)

/-- Witness for C7's amended claim: smoothing the neutral sample space
against itself holds its state, so the stability score does not decrease. -/
theorem c7_witness :
    (smoothSpace sampleSpace sampleSpace 0).isOccupied = sampleSpace.isOccupied
    ∧ sampleSpace.features.stabilityScore ≤ 1
    ∧ sampleSpace.features.stabilityScore
        ≤ (smoothSpace sampleSpace sampleSpace 0).features.stabilityScore := by
  have hocc : (smoothSpace sampleSpace sampleSpace 0).isOccupied
      = sampleSpace.isOccupied := by
    norm_num [smoothSpace, sampleSpace, createEmptySpace, wideRegion, boundedHistory,
      weightedAverage, weightedVoteSum, expWeights, featureConsistencyScore,
      featureConfidenceScore, CONFIG.MIN_CONSECUTIVE_FRAMES, List.zip, List.zipWith,
      List.range, List.range.loop]
  have h1 : sampleSpace.features.stabilityScore ≤ 1 := by
    norm_num [sampleSpace, createEmptySpace]
  exact ⟨hocc, h1, (c7_stability_monotonicity sampleSpace sampleSpace 0).1 hocc h1⟩

/-- Claim C8 (code bug): with `MAX_FRAME_SKIP = 0`, JavaScript evaluates
`frameCount % 0` to `NaN` and `NaN !== 0` to `true`, so the frame-skip
early return DOES trigger (whenever the 1/30s window and `frameCount > 0`
hold), contrary to the claim (and the code's own `0 = no skip` comment). -/
theorem c8_skip_condition_evaluation :
    shouldSkipFrame 10 1 CONFIG.MAX_FRAME_SKIP = true
    ∧ frameModuloSkipCheck 1 CONFIG.MAX_FRAME_SKIP = true := by
  norm_num [shouldSkipFrame, frameModuloSkipCheck, CONFIG.MAX_FRAME_SKIP]

/-- Claim C9: the motion estimator returns 0 with no previous frame, and
otherwise the fraction of pixels whose grayscale absolute difference
exceeds 0.05 — always in [0,1]. -/
theorem c9_motion_score_bounds (cur prev : Frame) :
    calculateEnhancedMotionScore cur none = 0
    ∧ 0 ≤ calculateEnhancedMotionScore cur (some prev)
    ∧ calculateEnhancedMotionScore cur (some prev) ≤ 1 := by
  refine ⟨rfl, ?_, ?_⟩
  · simp only [calculateEnhancedMotionScore]
    exact div_nonneg (Nat.cast_nonneg _) (Nat.cast_nonneg _)
  · simp only [calculateEnhancedMotionScore]
    have hle : ((List.zipWith (fun a b => |a - b|) (cur.map rgbToGrayscale)
        (prev.map rgbToGrayscale)).filter fun d => decide (d > 5/100)).length
        ≤ (cur.map rgbToGrayscale).length := by
      refine le_trans (List.length_filter_le _ _) ?_
      rw [List.length_zipWith]
      exact min_le_left _ _
    by_cases hn : (cur.map rgbToGrayscale).length = 0
    · rw [hn]
      norm_num
    · rw [div_le_one (by exact_mod_cast Nat.pos_of_ne_zero hn)]
      exact_mod_cast hle

end Parking
